import Mathlib

/-!
Verification development for the RTSP-audio-analyser conversion scripts.

The repository consists of three Python scripts:
  - src/convert_yamnet.py: creates a directory tree, downloads the YAMNet
    model from TF Hub, wraps it in a signature-bearing Keras subclass,
    saves it as a SavedModel, and converts it to TFJS with a library call.
  - src/extract_weights.py: loads the model with hub.KerasLayer and writes
    each variable's name, shape and dtype to a JSON file.
  - src/reconvert_to_tfjs.py: loads a SavedModel and shells out to the
    tensorflowjs_converter command-line tool via os.system on a
    space-joined command string.

External effects (model loading, saving, the subprocess, the filesystem)
are represented by explicit parameters (Except results for fallible
library calls, a function String to Option Json for the filesystem) and by
event traces recording the effectful calls each script makes, in source
order.
-/

/-- Subset of JSON sufficient for the descriptor file written by
extract_weights.py: strings, integers, arrays and objects. -/
inductive Json where
  | str : String → Json
  | int : Int → Json
  | arr : List Json → Json
  | obj : List (String × Json) → Json

/-- Keys of a JSON object, in order; other JSON values have no keys. -/
def Json.keys : Json → List String
  | Json.obj fields => fields.map (fun kv => kv.1)
  | _ => []

/-- Model variable as reported by the external loader
(hub.KerasLayer(...).variables): its name, shape and dtype name. -/
structure TfVariable where
  name : String
  shape : List Int
  dtype : String
deriving DecidableEq, Inhabited

/-- Record built for one variable in the loop of extract_weight_specs:
the Python dict literal with keys name, shape, dtype. -/
def weightSpec (v : TfVariable) : Json :=
  Json.obj [("name", Json.str v.name),
            ("shape", Json.arr (v.shape.map Json.int)),
            ("dtype", Json.str v.dtype)]

/-- List accumulated by the for-loop over yamnet_model.variables in
extract_weight_specs (weight_specs.append per variable, in order). -/
def weight_specs (vars : List TfVariable) : List Json :=
  vars.map weightSpec

/-- Result of one run of extract_weight_specs: the filesystem after the
run, the messages printed, and the exception it lets propagate (none:
the function returned normally). -/
structure ExtractResult where
  fs : String → Option Json
  printed : List String
  raised : Option String

/-- Shallow embedding of extract_weight_specs (src/extract_weights.py
lines 6-35). The hub.KerasLayer load is the fallible external call; if
it succeeds the function builds weight_specs and json.dump writes the
array to output_json_path, then prints the success message; on any
exception the except block prints the error and the function returns with
nothing written and nothing re-raised. -/
def extract_weight_specs (load : Except String (List TfVariable))
    (output_json_path : String) (fs : String → Option Json) : ExtractResult :=
  match load with
  | Except.error e =>
      { fs := fs
        printed := ["❌ Error during extraction: " ++ e]
        raised := none }
  | Except.ok vars =>
      { fs := fun p => if p = output_json_path
                       then some (Json.arr (weight_specs vars))
                       else fs p
        printed := ["✅ Weight specs saved to: " ++ output_json_path]
        raised := none }

/-- MODEL_URL constant of the extract_weights.py main block. -/
def MODEL_URL : String := "https://tfhub.dev/google/yamnet/1"

/-- OUTPUT_JSON_PATH constant of the extract_weights.py main block. -/
def OUTPUT_JSON_PATH : String := "./yamnet_conversion/yamnet_tf/weight_specs.json"

/-- Indexing a mapped list below the length agrees with mapping the
indexed element. -/
theorem getD_map_of_lt {α β : Type} (f : α → β) (d : α) (e : β) :
    ∀ (l : List α) (i : Nat), i < l.length → (l.map f).getD i e = f (l.getD i d) := by
  intro l
  induction l with
  | nil => intro i h; exact absurd h (Nat.not_lt_zero i)
  | cons a l ih =>
      intro i h
      cases i with
      | zero => rfl
      | succ n => exact ih n (Nat.lt_of_succ_lt_succ h)

/-- Claim C1: when the loader reports an ordered list of variables,
extract_weight_specs writes at the output path a JSON array with exactly
one record per variable, in the same order, each record an object with
exactly the keys name, shape, dtype holding that variable's name, shape
(as a sequence of integers) and dtype name. -/
theorem extract_writes_one_record_per_variable
    (vars : List TfVariable) (path : String) (fs : String → Option Json) :
    (extract_weight_specs (Except.ok vars) path fs).fs path
        = some (Json.arr (weight_specs vars))
    ∧ (weight_specs vars).length = vars.length
    ∧ (∀ i, i < vars.length →
        (weight_specs vars).getD i (Json.arr [])
          = Json.obj [("name", Json.str (vars.getD i default).name),
                      ("shape", Json.arr ((vars.getD i default).shape.map Json.int)),
                      ("dtype", Json.str (vars.getD i default).dtype)])
    ∧ (∀ i, i < vars.length →
        ((weight_specs vars).getD i (Json.arr [])).keys = ["name", "shape", "dtype"]) := by
  refine ⟨by simp [extract_weight_specs], by simp [weight_specs], ?_, ?_⟩
  · intro i h
    rw [weight_specs, getD_map_of_lt weightSpec default (Json.arr []) vars i h]
    rfl
  · intro i h
    rw [weight_specs, getD_map_of_lt weightSpec default (Json.arr []) vars i h]
    rfl

/-- Claim C1 witness: the theorem at a concrete variable list, output
path and empty filesystem. -/
theorem extract_writes_one_record_per_variable_witness :
    (extract_weight_specs
        (Except.ok [{ name := "w0", shape := [2, 3], dtype := "float32" }])
        "out.json" (fun _ => none)).fs "out.json"
      = some (Json.arr (weight_specs [{ name := "w0", shape := [2, 3], dtype := "float32" }]))
    ∧ (weight_specs [{ name := "w0", shape := [2, 3], dtype := "float32" }]).getD 0 (Json.arr [])
      = Json.obj [("name", Json.str "w0"),
                  ("shape", Json.arr [Json.int 2, Json.int 3]),
                  ("dtype", Json.str "float32")] :=
  ⟨(extract_writes_one_record_per_variable _ _ _).1,
   (extract_writes_one_record_per_variable
      [{ name := "w0", shape := [2, 3], dtype := "float32" }] "out.json"
      (fun _ => none)).2.2.1 0 (by decide)⟩

/-- Claim C9: when the load raises, extract_weight_specs leaves the
filesystem unchanged (the output file is neither created nor modified),
prints the error, and returns normally without propagating. -/
theorem extract_error_leaves_state_unchanged
    (e : String) (path : String) (fs : String → Option Json) :
    (extract_weight_specs (Except.error e) path fs).fs = fs
    ∧ (extract_weight_specs (Except.error e) path fs).raised = none
    ∧ (extract_weight_specs (Except.error e) path fs).printed
        = ["❌ Error during extraction: " ++ e] :=
  ⟨rfl, rfl, rfl⟩

/-- Result of one run of reconvert_to_tfjs: the command strings handed to
os.system, the messages printed, and the exception it propagates (the
except block re-raises, so an error load yields some e). -/
structure ReconvertResult where
  executed : List String
  printed : List String
  raised : Option String

/-- Command list built in reconvert_to_tfjs (src/reconvert_to_tfjs.py
lines 15-23): the converter name, the four fixed flags, then the input
path and the output path. -/
def reconvert_command (saved_model_path tfjs_output_path : String) : List String :=
  ["tensorflowjs_converter",
   "--input_format=tf_saved_model",
   "--output_format=tfjs_graph_model",
   "--signature_name=serving_default",
   "--saved_model_tags=serve",
   saved_model_path,
   tfjs_output_path]

/-- Single string handed to the shell by os.system, built as
" ".join(command) (src/reconvert_to_tfjs.py line 27). -/
def shell_command (saved_model_path tfjs_output_path : String) : String :=
  String.intercalate " " (reconvert_command saved_model_path tfjs_output_path)

/-- Shallow embedding of reconvert_to_tfjs (src/reconvert_to_tfjs.py
lines 5-33). The tf.saved_model.load call is the fallible external call;
on success the function joins the command with spaces, prints it, hands
it to os.system and prints the success message; on an exception the
except block prints the error and then re-raises it. -/
def reconvert_to_tfjs (load : Except String Unit)
    (saved_model_path tfjs_output_path : String) : ReconvertResult :=
  match load with
  | Except.error e =>
      { executed := []
        printed := ["❌ Error during reconversion: " ++ e]
        raised := some e }
  | Except.ok _ =>
      { executed := [shell_command saved_model_path tfjs_output_path]
        printed := ["Running command: " ++ shell_command saved_model_path tfjs_output_path,
                    "✅ TFJS model (reconverted) saved to: " ++ tfjs_output_path]
        raised := none }

/-- SAVED_MODEL_PATH constant of the reconvert_to_tfjs.py main block. -/
def SAVED_MODEL_PATH : String := "./yamnet_conversion/yamnet_tf"

/-- TFJS_OUTPUT_PATH constant of the reconvert_to_tfjs.py main block. -/
def TFJS_OUTPUT_PATH : String := "./yamnet_conversion/yamnet_tfjs_reconverted"

/-- Claim C3: for every saved_model_path and tfjs_output_path, the
subprocess invocation made by reconvert_to_tfjs is built from exactly the
converter name, the four fixed flags in order, then the input path, then
the output path, and exactly one such invocation is handed to the shell. -/
theorem reconvert_command_is_fixed_flags_then_paths
    (saved_model_path tfjs_output_path : String) :
    reconvert_command saved_model_path tfjs_output_path
      = ["tensorflowjs_converter",
         "--input_format=tf_saved_model",
         "--output_format=tfjs_graph_model",
         "--signature_name=serving_default",
         "--saved_model_tags=serve",
         saved_model_path,
         tfjs_output_path]
    ∧ (reconvert_to_tfjs (Except.ok ()) saved_model_path tfjs_output_path).executed
      = [String.intercalate " " (reconvert_command saved_model_path tfjs_output_path)] :=
  ⟨rfl, rfl⟩

/-- Shell metacharacters in the POSIX sense: the blanks and the operator
characters, each of which, unquoted, delimits the current token. The
script applies no quoting to the joined command, so in the string handed
to os.system every one of these characters ends the word being read. -/
def shell_metachars : List Char := [' ', '\t', '\n', '|', '&', ';', '(', ')', '<', '>']

/-- Prepending a character to the first word of a word list: the
recursive step of token recognition for a non-delimiter character. -/
def consWord (c : Char) : List (List Char) → List (List Char)
  | [] => [[c]]
  | w :: ws => (c :: w) :: ws

/-- Token recognition of an unquoted command string, modelled from the
POSIX shell: a character in the delimiter set ends the current word, any
other character is prepended to it. Every word produced is a maximal run
of non-delimiter characters, so any argument the invoked program can
receive contains no delimiter. -/
def splitAny (seps : List Char) : List Char → List (List Char)
  | [] => [[]]
  | c :: cs =>
    if c ∈ seps then [] :: splitAny seps cs else consWord c (splitAny seps cs)

/-- Prepending a non-delimiter character preserves delimiter-freedom of
every word. -/
theorem consWord_no_sep (seps : List Char) (c : Char) (hc : c ∉ seps) :
    ∀ (L : List (List Char)), (∀ u ∈ L, ∀ m ∈ u, m ∉ seps) →
      ∀ w ∈ consWord c L, ∀ m ∈ w, m ∉ seps := by
  intro L hL w hw
  cases L with
  | nil =>
      rw [consWord] at hw
      rw [List.mem_singleton.mp hw]
      intro m hm
      rw [List.mem_singleton.mp hm]
      exact hc
  | cons w' ws =>
      rw [consWord] at hw
      rcases List.mem_cons.mp hw with h | h
      · rw [h]
        intro m hm
        rcases List.mem_cons.mp hm with h' | h'
        · rw [h']; exact hc
        · exact hL w' (List.mem_cons_self w' ws) m h'
      · exact hL w (List.mem_cons.mpr (Or.inr h))

/-- No word produced by splitAny contains a delimiter. -/
theorem splitAny_no_sep (seps : List Char) :
    ∀ (cs : List Char), ∀ w ∈ splitAny seps cs, ∀ m ∈ w, m ∉ seps := by
  intro cs
  induction cs with
  | nil =>
      intro w hw m hm
      rw [List.mem_singleton.mp hw] at hm
      exact absurd hm (List.not_mem_nil m)
  | cons c cs ih =>
      intro w hw
      rw [splitAny] at hw
      by_cases hc : c ∈ seps
      · rw [if_pos hc] at hw
        rcases List.mem_cons.mp hw with h | h
        · intro m hm
          rw [h] at hm
          exact absurd hm (List.not_mem_nil m)
        · exact ih w h
      · rw [if_neg hc] at hw
        exact consWord_no_sep seps c hc (splitAny seps cs) ih w hw

/-- Claim C8: the command reconvert_to_tfjs executes is the single string
obtained by joining the command elements with spaces (handed to the shell
by os.system), so whenever saved_model_path or tfjs_output_path contains
a space or another shell metacharacter, that path is never received by
the converter as a single argument: it is not among the words the shell's
token recognition produces from the command string. -/
theorem reconvert_special_path_not_single_argument
    (saved_model_path tfjs_output_path : String)
    (hs : (∃ c ∈ saved_model_path.data, c ∈ shell_metachars)
          ∨ (∃ c ∈ tfjs_output_path.data, c ∈ shell_metachars)) :
    (reconvert_to_tfjs (Except.ok ()) saved_model_path tfjs_output_path).executed
      = [shell_command saved_model_path tfjs_output_path]
    ∧ shell_command saved_model_path tfjs_output_path
      = String.intercalate " " (reconvert_command saved_model_path tfjs_output_path)
    ∧ ((∃ c ∈ saved_model_path.data, c ∈ shell_metachars) →
        saved_model_path.data
          ∉ splitAny shell_metachars (shell_command saved_model_path tfjs_output_path).data)
    ∧ ((∃ c ∈ tfjs_output_path.data, c ∈ shell_metachars) →
        tfjs_output_path.data
          ∉ splitAny shell_metachars (shell_command saved_model_path tfjs_output_path).data)
    ∧ (saved_model_path.data
          ∉ splitAny shell_metachars (shell_command saved_model_path tfjs_output_path).data
       ∨ tfjs_output_path.data
          ∉ splitAny shell_metachars (shell_command saved_model_path tfjs_output_path).data) := by
  have key : ∀ (p : String), (∃ c ∈ p.data, c ∈ shell_metachars) →
      p.data ∉ splitAny shell_metachars (shell_command saved_model_path tfjs_output_path).data := by
    intro p hp hmem
    rcases hp with ⟨c, hcp, hcs⟩
    exact splitAny_no_sep shell_metachars _ p.data hmem c hcp hcs
  refine ⟨rfl, rfl, key saved_model_path, key tfjs_output_path, ?_⟩
  rcases hs with h | h
  · exact Or.inl (key saved_model_path h)
  · exact Or.inr (key tfjs_output_path h)

/-- Claim C8 witness: the theorem at an input path containing a space and
an output path containing a semicolon; neither is a single word of the
shell's token recognition of the executed command. -/
theorem reconvert_special_path_not_single_argument_witness :
    (∃ c ∈ "my dir".data, c ∈ shell_metachars)
    ∧ (∃ c ∈ "out;rm".data, c ∈ shell_metachars)
    ∧ "my dir".data ∉ splitAny shell_metachars (shell_command "my dir" "out;rm").data
    ∧ "out;rm".data ∉ splitAny shell_metachars (shell_command "my dir" "out;rm").data :=
  ⟨by decide, by decide,
   (reconvert_special_path_not_single_argument "my dir" "out;rm"
      (Or.inl (by decide))).2.2.1 (by decide),
   (reconvert_special_path_not_single_argument "my dir" "out;rm"
      (Or.inl (by decide))).2.2.2.1 (by decide)⟩

/-- Effectful calls made by convert_yamnet.py, in source order: directory
creation, the hub download, wrapper construction, SavedModel save and
load, the signatures print, the TFJS conversion, and literal prints. -/
inductive Event where
  | makedirs : String → Event
  | print : String → Event
  | hubLoad : String → Event
  | wrapModel : Event
  | savedModelSave : String → Event
  | savedModelLoad : String → Event
  | printSignatures : Event
  | tfjsConvert : String → String → Event
deriving DecidableEq

/-- Outcomes of the fallible external calls convert_yamnet.py makes, one
Except per call, supplied as the environment of a run. -/
structure ConvertEnv where
  hubLoad : Except String Unit
  save : Except String Unit
  loadSaved : Except String Unit
  convert : Except String Unit

/-- Base directory constant of convert_yamnet.py (line 7). -/
def base_dir : String := "yamnet_conversion"

/-- SavedModel directory used throughout convert_yamnet.py,
f-string base_dir/yamnet_tf. -/
def tf_dir : String := base_dir ++ "/yamnet_tf"

/-- TFJS output directory of convert_yamnet.py, f-string
base_dir/yamnet_tfjs. -/
def tfjs_dir : String := base_dir ++ "/yamnet_tfjs"

/-- Hub URL hard-coded in convert_yamnet.py (line 14). -/
def YAMNET_URL : String := "https://tfhub.dev/google/yamnet/1"

/-- Shallow embedding of the convert_yamnet.py module body (lines 1-51):
the trace of effectful calls it makes and the exception it propagates.
The script has no try block, so the first failing call ends the trace and
its exception escapes; directory creation is os.makedirs with
exist_ok=True and is modelled as always succeeding. -/
def convert_yamnet_run (env : ConvertEnv) : List Event × Option String :=
  let t0 := [Event.makedirs base_dir, Event.makedirs tf_dir, Event.makedirs tfjs_dir,
             Event.print "Downloading YAMNet model...",
             Event.hubLoad YAMNET_URL]
  match env.hubLoad with
  | Except.error e => (t0, some e)
  | Except.ok _ =>
    let t1 := t0 ++ [Event.print "Creating wrapped model...",
                     Event.wrapModel,
                     Event.print "Saving model in SavedModel format...",
                     Event.savedModelSave tf_dir]
    match env.save with
    | Except.error e => (t1, some e)
    | Except.ok _ =>
      let t2 := t1 ++ [Event.print "Loading SavedModel and inspecting signatures...",
                       Event.savedModelLoad tf_dir]
      match env.loadSaved with
      | Except.error e => (t2, some e)
      | Except.ok _ =>
        let t3 := t2 ++ [Event.printSignatures,
                         Event.print "Converting to TFJS format...",
                         Event.tfjsConvert tf_dir tfjs_dir]
        match env.convert with
        | Except.error e => (t3, some e)
        | Except.ok _ =>
          (t3 ++ [Event.print "Conversion complete! Model is in the yamnet_conversion/yamnet_tfjs directory"],
           none)

/-- Environment in which every external call of convert_yamnet.py
succeeds. -/
def allOkEnv : ConvertEnv :=
  { hubLoad := Except.ok (), save := Except.ok (), loadSaved := Except.ok (),
    convert := Except.ok () }

/-- Trace of the successful run of convert_yamnet.py. -/
def convert_yamnet_events : List Event := (convert_yamnet_run allOkEnv).1

/-- Claim C5: convert_yamnet.py fetches the model from the hub, then
wraps its callable, then persists the wrapped model, then invokes the
converter, in that exact order; and in every run (any environment) no
converter invocation precedes the SavedModel save. -/
theorem convert_yamnet_order :
    convert_yamnet_events
      = [Event.makedirs base_dir, Event.makedirs tf_dir, Event.makedirs tfjs_dir,
         Event.print "Downloading YAMNet model...",
         Event.hubLoad YAMNET_URL,
         Event.print "Creating wrapped model...",
         Event.wrapModel,
         Event.print "Saving model in SavedModel format...",
         Event.savedModelSave tf_dir,
         Event.print "Loading SavedModel and inspecting signatures...",
         Event.savedModelLoad tf_dir,
         Event.printSignatures,
         Event.print "Converting to TFJS format...",
         Event.tfjsConvert tf_dir tfjs_dir,
         Event.print "Conversion complete! Model is in the yamnet_conversion/yamnet_tfjs directory"]
    ∧ (∀ env : ConvertEnv, ∀ i, i < (convert_yamnet_run env).1.length →
        (convert_yamnet_run env).1.getD i Event.wrapModel = Event.tfjsConvert tf_dir tfjs_dir →
        ∀ j, j < (convert_yamnet_run env).1.length →
          (convert_yamnet_run env).1.getD j Event.wrapModel = Event.savedModelSave tf_dir →
          j < i) := by
  refine ⟨rfl, ?_⟩
  intro env
  rcases env with ⟨h1 | h1, h2 | h2, h3 | h3, h4 | h4⟩ <;>
    exact of_decide_eq_true rfl

/-- Claim C5 witness: in the all-success run the converter invocation
sits at index 13 and the SavedModel save at index 8, in this order. -/
theorem convert_yamnet_order_witness :
    convert_yamnet_events.getD 13 Event.wrapModel = Event.tfjsConvert tf_dir tfjs_dir
    ∧ convert_yamnet_events.getD 8 Event.wrapModel = Event.savedModelSave tf_dir
    ∧ 8 < 13 :=
  ⟨rfl, rfl, by decide⟩

/-- Claim C2 counterexample: reconvert_to_tfjs does not merely catch and
print; its except block re-raises, so at a concrete failing load the
function both prints the error and propagates the exception. -/
theorem reconvert_reraises_counterexample :
    (reconvert_to_tfjs (Except.error "load failed") "a" "b").raised = some "load failed"
    ∧ (reconvert_to_tfjs (Except.error "load failed") "a" "b").raised ≠ none
    ∧ (reconvert_to_tfjs (Except.error "load failed") "a" "b").printed
        = ["❌ Error during reconversion: load failed"] :=
  ⟨rfl, by decide, rfl⟩

/-- Claim C2 as amended: extract_weight_specs catches every error at top
level, prints it and never propagates; reconvert_to_tfjs catches and
prints but then re-raises, so its errors do propagate; convert_yamnet.py
has no handler, so whichever of its four fallible external calls (hub
download, SavedModel save, SavedModel load, TFJS conversion) fails first,
that exception propagates uncaught. -/
theorem error_handling_per_script
    (load : Except String (List TfVariable)) (p : String)
    (fs : String → Option Json) (e s t : String) (env : ConvertEnv) :
    (extract_weight_specs load p fs).raised = none
    ∧ (extract_weight_specs (Except.error e) p fs).printed
        = ["❌ Error during extraction: " ++ e]
    ∧ (reconvert_to_tfjs (Except.error e) s t).raised = some e
    ∧ (reconvert_to_tfjs (Except.error e) s t).printed
        = ["❌ Error during reconversion: " ++ e]
    ∧ (reconvert_to_tfjs (Except.ok ()) s t).raised = none
    ∧ (convert_yamnet_run { hubLoad := Except.error e, save := env.save,
                            loadSaved := env.loadSaved, convert := env.convert }).2 = some e
    ∧ (convert_yamnet_run { hubLoad := Except.ok (), save := Except.error e,
                            loadSaved := env.loadSaved, convert := env.convert }).2 = some e
    ∧ (convert_yamnet_run { hubLoad := Except.ok (), save := Except.ok (),
                            loadSaved := Except.error e, convert := env.convert }).2 = some e
    ∧ (convert_yamnet_run { hubLoad := Except.ok (), save := Except.ok (),
                            loadSaved := Except.ok (), convert := Except.error e }).2 = some e
    ∧ (convert_yamnet_run allOkEnv).2 = none := by
  refine ⟨?_, rfl, rfl, rfl, rfl, rfl, rfl, rfl, rfl, rfl⟩
  cases load with
  | error e' => rfl
  | ok vars => rfl

/-- Directories created by the convert_yamnet.py module body, read off
its trace of makedirs calls. -/
def convert_yamnet_created_dirs : List String :=
  (convert_yamnet_run allOkEnv).1.filterMap (fun ev =>
    match ev with
    | Event.makedirs p => some p
    | _ => none)

/-- Directories created by the extract_weights.py main block: none. -/
def extract_main_created_dirs : List String := []

/-- Directories created by the reconvert_to_tfjs.py main block
(src/reconvert_to_tfjs.py line 38): os.makedirs of TFJS_OUTPUT_PATH. -/
def reconvert_main_created_dirs : List String := [TFJS_OUTPUT_PATH]

/-- All directories the three scripts create. -/
def repo_created_dirs : List String :=
  convert_yamnet_created_dirs ++ extract_main_created_dirs ++ reconvert_main_created_dirs

/-- All files written directly by code of this repository: extract's JSON
descriptor (every other file is written by the external framework). -/
def repo_written_files : List String := [OUTPUT_JSON_PATH]

/-- Claim C4 counterexample: reconvert_to_tfjs.py's main block creates
the directory ./yamnet_conversion/yamnet_tfjs_reconverted, which is none
of the three members of the fixed tree (with or without the leading ./),
so the created directories are not limited to that tree. -/
theorem created_dirs_outside_fixed_tree :
    TFJS_OUTPUT_PATH ∈ repo_created_dirs
    ∧ TFJS_OUTPUT_PATH ∉ ["yamnet_conversion",
                          "yamnet_conversion/yamnet_tf",
                          "yamnet_conversion/yamnet_tfjs",
                          "./yamnet_conversion",
                          "./yamnet_conversion/yamnet_tf",
                          "./yamnet_conversion/yamnet_tfjs"] := by
  refine ⟨?_, ?_⟩ <;> decide

/-- Claim C4 as amended: the directories created across the three scripts
are the fixed tree (base, base/yamnet_tf, base/yamnet_tfjs) plus the
reconverted output directory created by reconvert_to_tfjs.py's main
block, and the only file written by repository code is the JSON
descriptor: extract_weight_specs changes no path other than its output
path. -/
theorem created_dirs_and_written_files
    (load : Except String (List TfVariable)) (fs : String → Option Json)
    (p : String) (h : p ≠ OUTPUT_JSON_PATH) :
    repo_created_dirs = ["yamnet_conversion",
                         "yamnet_conversion/yamnet_tf",
                         "yamnet_conversion/yamnet_tfjs",
                         "./yamnet_conversion/yamnet_tfjs_reconverted"]
    ∧ repo_written_files = [OUTPUT_JSON_PATH]
    ∧ (extract_weight_specs load OUTPUT_JSON_PATH fs).fs p = fs p := by
  refine ⟨by decide, rfl, ?_⟩
  cases load with
  | error e => rfl
  | ok vars => simp [extract_weight_specs, h]

/-- Claim C4 witness: the amended theorem at a concrete path different
from the output path, on the empty filesystem. -/
theorem created_dirs_and_written_files_witness :
    ("other" : String) ≠ OUTPUT_JSON_PATH
    ∧ (extract_weight_specs (Except.ok []) OUTPUT_JSON_PATH (fun _ => none)).fs "other" = none :=
  ⟨by decide,
   (created_dirs_and_written_files (Except.ok []) (fun _ => none) "other" (by decide)).2.2⟩

/-- Tensor dimension in an input signature: unknown (None) or fixed. -/
inductive Dim where
  | unknown : Dim
  | fixed : Nat → Dim
deriving DecidableEq

/-- Declared tensor argument contract: shape and element dtype, as in
tf.TensorSpec. -/
structure TensorSpec where
  shape : List Dim
  dtype : String
deriving DecidableEq, Inhabited

/-- Input signature attached by the tf.function decorator to
YAMNetWrapper.call (src/convert_yamnet.py line 22): one TensorSpec of
shape [None] and dtype float32. -/
def yamnet_call_input_signature : List TensorSpec :=
  [{ shape := [Dim.unknown], dtype := "float32" }]

/-- Methods of YAMNetWrapper that carry an input signature: only call is
decorated; __init__ is the only other method and has none. -/
def YAMNetWrapper_signed_methods : List (String × List TensorSpec) :=
  [("call", yamnet_call_input_signature)]

/-- Claim C6: the wrapper's callable accepts exactly one tensor argument,
of rank 1 with unconstrained length (shape [None]) and dtype float32, and
no other method of the wrapper carries an input signature. -/
theorem yamnet_call_signature_fixed :
    yamnet_call_input_signature.length = 1
    ∧ (yamnet_call_input_signature.getD 0 default).shape = [Dim.unknown]
    ∧ (yamnet_call_input_signature.getD 0 default).shape.length = 1
    ∧ (yamnet_call_input_signature.getD 0 default).dtype = "float32"
    ∧ YAMNetWrapper_signed_methods.length = 1
    ∧ YAMNetWrapper_signed_methods.getD 0 ("", [])
        = ("call", yamnet_call_input_signature) :=
  ⟨rfl, rfl, rfl, rfl, rfl, rfl⟩

/-- Configuration a script run actually uses: the directories it creates,
the model URL it downloads, the paths it reads and writes, and the
converter flags it passes. Each script's configuration is a function of
the process argv and environment, as any script's behaviour could be. -/
structure ScriptConfig where
  created_dirs : List String
  model_url : Option String
  input_paths : List String
  output_paths : List String
  converter_flags : List String
deriving DecidableEq

/-- Configuration used by convert_yamnet.py: every value is a hard-coded
constant, so argv and the environment are ignored. -/
def convert_yamnet_config (_argv : List String) (_env : String → Option String) :
    ScriptConfig :=
  { created_dirs := [base_dir, tf_dir, tfjs_dir]
    model_url := some YAMNET_URL
    input_paths := [tf_dir]
    output_paths := [tf_dir, tfjs_dir]
    converter_flags := [] }

/-- Configuration used by extract_weights.py: hard-coded MODEL_URL and
OUTPUT_JSON_PATH, no argv or environment access. -/
def extract_weights_config (_argv : List String) (_env : String → Option String) :
    ScriptConfig :=
  { created_dirs := []
    model_url := some MODEL_URL
    input_paths := []
    output_paths := [OUTPUT_JSON_PATH]
    converter_flags := [] }

/-- Configuration used by reconvert_to_tfjs.py: hard-coded
SAVED_MODEL_PATH, TFJS_OUTPUT_PATH and converter flags, no argv or
environment access. -/
def reconvert_to_tfjs_config (_argv : List String) (_env : String → Option String) :
    ScriptConfig :=
  { created_dirs := [TFJS_OUTPUT_PATH]
    model_url := none
    input_paths := [SAVED_MODEL_PATH]
    output_paths := [TFJS_OUTPUT_PATH]
    converter_flags := ["--input_format=tf_saved_model",
                        "--output_format=tfjs_graph_model",
                        "--signature_name=serving_default",
                        "--saved_model_tags=serve"] }

/-- Claim C7: no script's behaviour depends on argv or the environment:
any two runs of the same script, whatever their argv and environment, use
the identical paths, model URL and converter flags. -/
theorem scripts_ignore_argv_and_env
    (a₁ a₂ : List String) (e₁ e₂ : String → Option String) :
    convert_yamnet_config a₁ e₁ = convert_yamnet_config a₂ e₂
    ∧ extract_weights_config a₁ e₁ = extract_weights_config a₂ e₂
    ∧ reconvert_to_tfjs_config a₁ e₁ = reconvert_to_tfjs_config a₂ e₂ :=
  ⟨rfl, rfl, rfl⟩

/-- Shallow embedding of YAMNetWrapper.call (src/convert_yamnet.py lines
22-25): the underlying model returns the triple (scores, embeddings,
spectrograms) and call returns scores alone. The tensor types are
abstract parameters. -/
def YAMNetWrapper.call {W S E P : Type} (yamnet : W → S × E × P) (waveform : W) : S :=
  (yamnet waveform).1

/-- Claim C10: for every input waveform, YAMNetWrapper.call returns only
the first component (scores) of the triple produced by the underlying
model; embeddings and spectrograms are discarded (the result type exposes
scores alone). -/
theorem yamnet_wrapper_returns_scores_only
    {W S E P : Type} (yamnet : W → S × E × P) (waveform : W)
    (scores : S) (embeddings : E) (spectrograms : P)
    (h : yamnet waveform = (scores, embeddings, spectrograms)) :
    YAMNetWrapper.call yamnet waveform = scores := by
  simp only [YAMNetWrapper.call, h]

/-- Claim C10 witness: the theorem at a concrete model returning a
concrete triple. -/
theorem yamnet_wrapper_returns_scores_only_witness :
    YAMNetWrapper.call (fun _ : Nat => ((5 : Nat), (6 : Nat), (7 : Nat))) 0 = 5 :=
  yamnet_wrapper_returns_scores_only _ 0 5 6 7 rfl
